import Mathlib

/-!
Verification of the replay detection-and-extraction pipeline of faf-replay-cli
(src/main.rs), as a shallow embedding.

Modelling conventions:
- A Rust `&str` is modelled as its list of characters (`Str`).
- The filesystem is a parameter `fs : Str → Option (List Str)`: `fs name = none`
  models `File::open` failing (its error is propagated by `?`), and
  `fs name = some lines` models the successive `io::Result<String>` items
  yielded by `BufReader::lines()`, each read succeeding.
- The zlib decompressor (the external `flate2::read::ZlibDecoder`, not part of
  this repository) is a parameter `inflate : List Nat → Option (List Nat)`:
  `none` models `read_to_end` returning an error for a corrupt or truncated
  stream, `some out` models a successful full inflation to bytes `out`.
- `tempfile::NamedTempFile::new()` and `write_all` are modelled as succeeding;
  a materialized temp file is represented by the bytes written to it.
- A Rust panic (an `unwrap` of `None`, or `split_at` out of bounds) is the
  explicit outcome `RunResult.panicked`, distinct from every `io::Result`.
-/

/-- Rust `&str`, modelled as its list of characters. -/
abbrev Str := List Char

/-- Rust `str::ends_with` with a string pattern: literal, case-sensitive
suffix comparison. -/
def ends_with (s pat : Str) : Bool := pat.isSuffixOf s

/-- The `ReplayType` enum of src/main.rs. -/
inductive ReplayType where
  | Unknown
  | ForgedAlliance
  | FafLegacy
deriving DecidableEq

/-- `get_replay_type` of src/main.rs: the match with two `ends_with` guards,
first `".scfareplay"`, then `".fafreplay"`, wildcard `Unknown`. -/
def get_replay_type (file_name : Str) : ReplayType :=
  if ends_with file_name ".scfareplay".toList then ReplayType.ForgedAlliance
  else if ends_with file_name ".fafreplay".toList then ReplayType.FafLegacy
  else ReplayType.Unknown

/-- The distinct `io::Error` values the pipeline can produce, identified by the
source site that creates or propagates them:
`fileOpenFailed` is the error of `File::open` propagated by `?`;
`metadataMissing` is `InvalidData` "Replay corrupt - replay metadata json is missing";
`streamMissing` is `InvalidData` "Replay corrupt - binary replay stream is missing";
`badBase64` is `InvalidData` "Replay corrupt - couldn't decode base64";
`badCompressedStream` is the error of `ZlibDecoder::read_to_end` propagated by `?`;
`unknownReplayFormat` is `InvalidData` "Unknown replay format!". -/
inductive IoErr where
  | fileOpenFailed
  | metadataMissing
  | streamMissing
  | badBase64
  | badCompressedStream
  | unknownReplayFormat
deriving DecidableEq

/-- Outcome of running a fallible Rust function: a value, an `io::Error`, or a
panic. -/
inductive RunResult (α : Type) where
  | ok (a : α)
  | err (e : IoErr)
  | panicked
deriving DecidableEq

/-- A Rust `&Path` (an OS string): either valid UTF-8 with character content
`s`, or not valid UTF-8 (raw bytes). -/
inductive RustPath where
  | utf8 (s : Str)
  | nonUtf8 (bytes : List Nat)
deriving DecidableEq

/-- Rust `Path::to_str`: `Some` exactly for valid UTF-8 paths. -/
def RustPath.to_str : RustPath → Option Str
  | RustPath.utf8 s => some s
  | RustPath.nonUtf8 _ => none

/-- The `ReplayLocation` enum of src/main.rs: `AtPath` borrows the original
path; `AtTempFile` owns a `NamedTempFile`, modelled by the bytes written to
it. -/
inductive ReplayLocation where
  | atPath (p : RustPath)
  | atTempFile (contents : List Nat)
deriving DecidableEq

/-- Index of a character in a list, leftmost occurrence. -/
def charIndex (c : Char) : List Char → Option Nat
  | [] => none
  | d :: ds => if d = c then some 0 else (charIndex c ds).map (fun n => n + 1)

/-- The standard base64 alphabet (RFC 4648), used by `base64::STANDARD`. -/
def b64Chars : List Char :=
  "ABCDEFGHIJKLMNOPQRSTUVWXYZabcdefghijklmnopqrstuvwxyz0123456789+/".toList

/-- The symbol for a 6-bit value in the standard base64 alphabet. -/
def b64EncChar (n : Nat) : Char := b64Chars.getD n 'A'

/-- The 6-bit value of a base64 symbol; `none` for characters outside the
standard alphabet (in particular for the padding character). -/
def b64DecChar (c : Char) : Option Nat := charIndex c b64Chars

/-- Decoding of a final padded base64 group of four characters, as
`base64::decode_config` with the `STANDARD` config accepts it: either
`c1 c2 = =` yielding one byte, or `c1 c2 c3 =` yielding two bytes, with
non-zero trailing bits rejected. -/
def b64DecodeTail (c1 c2 c3 c4 : Char) : Option (List Nat) :=
  if c4 = '=' then
    if c3 = '=' then
      match b64DecChar c1, b64DecChar c2 with
      | some n1, some n2 =>
          if n2 % 16 = 0 then some [n1 * 4 + n2 / 16] else none
      | _, _ => none
    else
      match b64DecChar c1, b64DecChar c2, b64DecChar c3 with
      | some n1, some n2, some n3 =>
          if n3 % 4 = 0 then some [n1 * 4 + n2 / 16, n2 % 16 * 16 + n3 / 4] else none
      | _, _, _ => none
  else none

/-- `base64::decode_config` with `base64::STANDARD` on canonical padded input:
complete groups of four symbols, padding allowed only in the final group,
any character outside the alphabet rejected. -/
def b64Decode : List Char → Option (List Nat)
  | [] => some []
  | c1 :: c2 :: c3 :: c4 :: rest =>
      if c3 = '=' ∨ c4 = '=' then
        if rest = [] then b64DecodeTail c1 c2 c3 c4 else none
      else
        match b64DecChar c1, b64DecChar c2, b64DecChar c3, b64DecChar c4,
              b64Decode rest with
        | some n1, some n2, some n3, some n4, some tl =>
            some ((n1 * 4 + n2 / 16) :: (n2 % 16 * 16 + n3 / 4) :: (n3 % 4 * 64 + n4) :: tl)
        | _, _, _, _, _ => none
  | _ => none

/-- Standard padded base64 encoding of a byte sequence, three bytes to four
symbols, the final group padded with `=`. -/
def b64Encode : List Nat → List Char
  | [] => []
  | [a] => [b64EncChar (a / 4), b64EncChar (a % 4 * 16), '=', '=']
  | [a, b] => [b64EncChar (a / 4), b64EncChar (a % 4 * 16 + b / 16),
               b64EncChar (b % 16 * 4), '=']
  | a :: b :: c :: rest =>
      b64EncChar (a / 4) :: b64EncChar (a % 4 * 16 + b / 16) ::
      b64EncChar (b % 16 * 4 + c / 64) :: b64EncChar (c % 64) :: b64Encode rest

/-- The Adler-32 checksum used by the zlib format. -/
def adler32 (data : List Nat) : Nat :=
  let p := data.foldl
    (fun (p : Nat × Nat) x => ((p.1 + x) % 65521, (p.2 + p.1 + x) % 65521)) (1, 0)
  p.2 * 65536 + p.1

/-- A concrete zlib inflater covering the stored-block subset of the format
(RFC 1950/1951): a two-byte zlib header (deflate method, valid check bits, no
preset dictionary), a single final stored deflate block, and a big-endian
Adler-32 trailer. It is one valid instantiation of the abstract `inflate`
parameter that models `flate2::read::ZlibDecoder`, used to build concrete
inputs whose inflation provably succeeds or fails. -/
def zlibInflateStored (bytes : List Nat) : Option (List Nat) :=
  match bytes with
  | cmf :: flg :: bhdr :: l0 :: l1 :: n0 :: n1 :: rest =>
      if cmf % 16 = 8 ∧ (cmf * 256 + flg) % 31 = 0 ∧ flg / 32 % 2 = 0
          ∧ bhdr = 1 ∧ n0 = 255 - l0 ∧ n1 = 255 - l1 ∧ l0 ≤ 255 ∧ l1 ≤ 255 then
        let len := l0 + l1 * 256
        if rest.length = len + 4 then
          match rest.drop len with
          | [a3, a2, a1, a0] =>
              if a3 * 16777216 + a2 * 65536 + a1 * 256 + a0 = adler32 (rest.take len)
              then some (rest.take len) else none
          | _ => none
        else none
      else none
  | _ => none

/-- A valid zlib stream (one stored deflate block) whose inflation yields the
bytes `[1, 2, 3, 4, 5]`. -/
def zlibStream12345 : List Nat :=
  [0x78, 0x01, 0x01, 0x05, 0x00, 0xFA, 0xFF, 1, 2, 3, 4, 5, 0x00, 0x28, 0x00, 0x10]

/-- `convert_legacy_replay_stream_to_raw` of src/main.rs:
base64-decode the stream (failure mapped to the `InvalidData` base64 error),
`split_at(4)` discarding the Qt prefix (a panic when fewer than 4 bytes were
decoded, since Rust's `split_at` panics for `mid > len`), then inflate the
remainder through the decompressor and write the output to a fresh temp file,
modelled by its contents. -/
def convert_legacy_replay_stream_to_raw (inflate : List Nat → Option (List Nat))
    (base64_stream : Str) : RunResult (List Nat) :=
  match b64Decode base64_stream with
  | none => RunResult.err IoErr.badBase64
  | some zipped_qt_data =>
      if 4 ≤ zipped_qt_data.length then
        match inflate (zipped_qt_data.drop 4) with
        | none => RunResult.err IoErr.badCompressedStream
        | some output => RunResult.ok output
      else RunResult.panicked

/-- `extract_faf_legacy_replay` of src/main.rs: open the file (propagating the
open error), take the first line as the discarded json metadata (its absence is
the `InvalidData` metadata error), take the second line as the base64 stream
(its absence is the `InvalidData` stream error), and convert it. -/
def extract_faf_legacy_replay (inflate : List Nat → Option (List Nat))
    (fs : Str → Option (List Str)) (file_name : Str) : RunResult (List Nat) :=
  match fs file_name with
  | none => RunResult.err IoErr.fileOpenFailed
  | some lines =>
      match lines with
      | [] => RunResult.err IoErr.metadataMissing
      | [_json_metadata] => RunResult.err IoErr.streamMissing
      | _json_metadata :: base64_replay_stream :: _ =>
          convert_legacy_replay_stream_to_raw inflate base64_replay_stream

/-- `prepare_replay_file` of src/main.rs: `to_str().unwrap()` on the path (a
panic for non-UTF-8 paths), then dispatch on `get_replay_type`: `Unknown` is
the `InvalidData` unknown-format error, `ForgedAlliance` returns the original
path, `FafLegacy` extracts into a temp file. -/
def prepare_replay_file (inflate : List Nat → Option (List Nat))
    (fs : Str → Option (List Str)) (replay_path : RustPath) :
    RunResult ReplayLocation :=
  match replay_path.to_str with
  | none => RunResult.panicked
  | some file_name =>
      match get_replay_type file_name with
      | ReplayType.Unknown => RunResult.err IoErr.unknownReplayFormat
      | ReplayType.ForgedAlliance => RunResult.ok (ReplayLocation.atPath replay_path)
      | ReplayType.FafLegacy =>
          match extract_faf_legacy_replay inflate fs file_name with
          | RunResult.ok bytes => RunResult.ok (ReplayLocation.atTempFile bytes)
          | RunResult.err e => RunResult.err e
          | RunResult.panicked => RunResult.panicked

/-- The end-to-end scenario container of the spec: a filesystem holding a
single file `replay.fafreplay` whose first line is the json text and whose
second line is the base64 encoding of four zero bytes followed by the
compressed payload. -/
def end_to_end_container (compressed : List Nat) : Str → Option (List Str) :=
  fun n =>
    if n = "replay.fafreplay".toList then
      some ["\x7b\"meta\":true\x7d".toList, b64Encode ([0, 0, 0, 0] ++ compressed)]
    else none

/-- Decoding a base64 symbol produced by the encoder recovers its 6-bit
value. -/
theorem b64DecChar_b64EncChar : ∀ n, n < 64 → b64DecChar (b64EncChar n) = some n := by
  decide

/-- Base64 symbols of 6-bit values are never the padding character. -/
theorem b64EncChar_ne_pad : ∀ n, n < 64 → b64EncChar n ≠ '=' := by
  decide

/-- Base64 round trip: decoding the canonical padded encoding of any byte
sequence recovers the sequence. -/
theorem b64_decode_encode :
    ∀ bs : List Nat, (∀ x ∈ bs, x < 256) → b64Decode (b64Encode bs) = some bs := by
  intro bs
  induction bs using b64Encode.induct with
  | case1 =>
    intro _
    rfl
  | case2 a =>
    intro hb
    have ha : a < 256 := hb a (by simp)
    have h1 : a / 4 < 64 := by omega
    have h2 : a % 4 * 16 < 64 := by omega
    simp only [b64Encode, b64Decode, b64DecodeTail]
    rw [b64DecChar_b64EncChar _ h1, b64DecChar_b64EncChar _ h2]
    have hz : a % 4 * 16 % 16 = 0 := by omega
    simp [hz]
    omega
  | case3 a b =>
    intro hb
    have ha : a < 256 := hb a (by simp)
    have hb' : b < 256 := hb b (by simp)
    have h1 : a / 4 < 64 := by omega
    have h2 : a % 4 * 16 + b / 16 < 64 := by omega
    have h3 : b % 16 * 4 < 64 := by omega
    have hne : b64EncChar (b % 16 * 4) ≠ '=' := b64EncChar_ne_pad _ h3
    simp only [b64Encode, b64Decode, b64DecodeTail]
    rw [b64DecChar_b64EncChar _ h1, b64DecChar_b64EncChar _ h2, b64DecChar_b64EncChar _ h3]
    have hz : b % 16 * 4 % 4 = 0 := by omega
    simp [hne, hz]
    constructor
    · omega
    · omega
  | case4 a b c rest ih =>
    intro hb
    have ha : a < 256 := hb a (by simp)
    have hb' : b < 256 := hb b (by simp)
    have hc : c < 256 := hb c (by simp)
    have h1 : a / 4 < 64 := by omega
    have h2 : a % 4 * 16 + b / 16 < 64 := by omega
    have h3 : b % 16 * 4 + c / 64 < 64 := by omega
    have h4 : c % 64 < 64 := by omega
    have hne3 : b64EncChar (b % 16 * 4 + c / 64) ≠ '=' := b64EncChar_ne_pad _ h3
    have hne4 : b64EncChar (c % 64) ≠ '=' := b64EncChar_ne_pad _ h4
    have hrest : ∀ x ∈ rest, x < 256 := by
      intro x hx
      exact hb x (by simp [hx])
    simp only [b64Encode, b64Decode]
    rw [b64DecChar_b64EncChar _ h1, b64DecChar_b64EncChar _ h2,
        b64DecChar_b64EncChar _ h3, b64DecChar_b64EncChar _ h4]
    simp [hne3, hne4, ih hrest]
    refine ⟨by omega, by omega, by omega⟩

/-- The stream decoder on the canonical encoding of a 4-byte prefix followed by
a compressed payload succeeds with the bytes the decompressor yields for that
payload. -/
theorem convert_round_trip (inflate : List Nat → Option (List Nat))
    (hdr4 compressed b : List Nat) (hlen : hdr4.length = 4)
    (hh : ∀ x ∈ hdr4, x < 256) (hc : ∀ x ∈ compressed, x < 256)
    (hinf : inflate compressed = some b) :
    convert_legacy_replay_stream_to_raw inflate (b64Encode (hdr4 ++ compressed)) =
      RunResult.ok b := by
  have hall : ∀ x ∈ hdr4 ++ compressed, x < 256 := by
    intro x hx
    rcases List.mem_append.mp hx with h | h
    · exact hh x h
    · exact hc x h
  have hdec := b64_decode_encode (hdr4 ++ compressed) hall
  have hge : 4 ≤ (hdr4 ++ compressed).length := by
    simp [List.length_append, hlen]
  simp only [convert_legacy_replay_stream_to_raw, hdec, if_pos hge]
  have hdrop : (hdr4 ++ compressed).drop 4 = compressed := by
    rw [← hlen]
    exact List.drop_left hdr4 compressed
  rw [hdrop, hinf]

/-- A name ending in `".scfareplay"` cannot also end in `".fafreplay"`: the two
literal suffixes are incompatible. -/
theorem scfa_excludes_faf {s : Str} (h : ends_with s ".scfareplay".toList = true) :
    ends_with s ".fafreplay".toList = false := by
  rw [ends_with, List.isSuffixOf_iff_suffix] at h
  rw [ends_with]
  by_contra hcon
  rw [Bool.not_eq_false, List.isSuffixOf_iff_suffix] at hcon
  rcases List.suffix_or_suffix_of_suffix h hcon with h1 | h1
  · exact absurd h1 (by decide)
  · exact absurd h1 (by decide)

/-- C1: for every byte sequence, running the stream decoder of
`convert_legacy_replay_stream_to_raw` on the base64 encoding of a 4-byte
prefix followed by a valid compression of the sequence succeeds and reproduces
the sequence exactly; and in the end-to-end scenario (a `.fafreplay` file whose
line 1 is the json text and line 2 is the base64 of four zero bytes followed by
a valid compression of `[1, 2, 3, 4, 5]`), materialization succeeds and the
materialized temp file's contents equal `[1, 2, 3, 4, 5]`. A "valid
compression" of bytes `b` is any payload the decompressor inflates to `b`. -/
theorem stream_decoder_round_trip :
    (∀ (inflate : List Nat → Option (List Nat)) (hdr4 compressed b : List Nat),
      hdr4.length = 4 → (∀ x ∈ hdr4, x < 256) → (∀ x ∈ compressed, x < 256) →
      inflate compressed = some b →
      convert_legacy_replay_stream_to_raw inflate (b64Encode (hdr4 ++ compressed)) =
        RunResult.ok b) ∧
    (∀ (inflate : List Nat → Option (List Nat)) (compressed : List Nat),
      (∀ x ∈ compressed, x < 256) → inflate compressed = some [1, 2, 3, 4, 5] →
      prepare_replay_file inflate (end_to_end_container compressed)
        (RustPath.utf8 "replay.fafreplay".toList) =
        RunResult.ok (ReplayLocation.atTempFile [1, 2, 3, 4, 5])) := by
  constructor
  · intro inflate hdr4 compressed b hlen hh hc hinf
    exact convert_round_trip inflate hdr4 compressed b hlen hh hc hinf
  · intro inflate compressed hc hinf
    have hconv := convert_round_trip inflate [0, 0, 0, 0] compressed [1, 2, 3, 4, 5]
      rfl (by decide) hc hinf
    have hty : get_replay_type "replay.fafreplay".toList = ReplayType.FafLegacy := by
      decide
    simp only [prepare_replay_file, RustPath.to_str, hty]
    simp only [extract_faf_legacy_replay, end_to_end_container, if_pos]
    rw [hconv]

/-- C1 witness: the round trip and the end-to-end scenario instantiated with
the stored-block zlib inflater and a concrete zlib stream for
`[1, 2, 3, 4, 5]`. -/
theorem stream_decoder_round_trip_witness :
    convert_legacy_replay_stream_to_raw zlibInflateStored
      (b64Encode ([0, 0, 0, 0] ++ zlibStream12345)) = RunResult.ok [1, 2, 3, 4, 5] ∧
    prepare_replay_file zlibInflateStored (end_to_end_container zlibStream12345)
      (RustPath.utf8 "replay.fafreplay".toList) =
      RunResult.ok (ReplayLocation.atTempFile [1, 2, 3, 4, 5]) :=
  ⟨stream_decoder_round_trip.1 zlibInflateStored [0, 0, 0, 0] zlibStream12345
      [1, 2, 3, 4, 5] rfl (by decide) (by decide) (by decide),
   stream_decoder_round_trip.2 zlibInflateStored zlibStream12345 (by decide) (by decide)⟩

/-- C2: the claim asks that a base64 input decoding to fewer than 4 bytes
yield a `CorruptReplay` error; the code instead panics, because
`split_at(4)` is unchecked and Rust's `split_at` panics when `mid > len`.
Concretely, `"AA=="` is valid base64 decoding to the single byte `[0]`, and
the stream decoder panics on it for every decompressor. -/
theorem short_buffer_panics :
    ∀ inflate : List Nat → Option (List Nat),
      b64Decode "AA==".toList = some [0] ∧
      convert_legacy_replay_stream_to_raw inflate "AA==".toList =
        RunResult.panicked :=
  fun _ => ⟨by decide, rfl⟩

/-- C3: `get_replay_type` is a total function returning `ForgedAlliance`
exactly for names ending in the literal suffix `".scfareplay"`, `FafLegacy`
exactly for names ending in `".fafreplay"`, and `Unknown` exactly otherwise;
the match is literal, case-sensitive suffix comparison. -/
theorem get_replay_type_classification (s : Str) :
    (get_replay_type s = ReplayType.ForgedAlliance ↔
      ends_with s ".scfareplay".toList = true) ∧
    (get_replay_type s = ReplayType.FafLegacy ↔
      ends_with s ".fafreplay".toList = true) ∧
    (get_replay_type s = ReplayType.Unknown ↔
      (ends_with s ".scfareplay".toList = false ∧
       ends_with s ".fafreplay".toList = false)) := by
  unfold get_replay_type
  rcases h1 : ends_with s ".scfareplay".toList with _ | _
  · rcases h2 : ends_with s ".fafreplay".toList with _ | _ <;> simp
  · have h2 := scfa_excludes_faf h1
    rw [h2]
    simp

/-- C4: `extract_faf_legacy_replay` on a container with fewer than two lines
returns a `CorruptReplay` error and never panics or decodes: an unopenable
file is the propagated open error, zero lines is the metadata-missing error,
exactly one line is the stream-missing error, and the two corruption errors
are distinct. -/
theorem extract_missing_lines_errors :
    ∀ (inflate : List Nat → Option (List Nat)) (fs : Str → Option (List Str))
      (name : Str),
      (fs name = none →
        extract_faf_legacy_replay inflate fs name = RunResult.err IoErr.fileOpenFailed) ∧
      (fs name = some [] →
        extract_faf_legacy_replay inflate fs name = RunResult.err IoErr.metadataMissing) ∧
      (∀ l : Str, fs name = some [l] →
        extract_faf_legacy_replay inflate fs name = RunResult.err IoErr.streamMissing) ∧
      IoErr.metadataMissing ≠ IoErr.streamMissing := by
  intro inflate fs name
  refine ⟨?_, ?_, ?_, by simp⟩
  · intro h
    simp only [extract_faf_legacy_replay, h]
  · intro h
    simp only [extract_faf_legacy_replay, h]
  · intro l h
    simp only [extract_faf_legacy_replay, h]

/-- C4 witness: the three error cases at concrete filesystems. -/
theorem extract_missing_lines_errors_witness :
    extract_faf_legacy_replay zlibInflateStored (fun _ => none) "a.fafreplay".toList =
      RunResult.err IoErr.fileOpenFailed ∧
    extract_faf_legacy_replay zlibInflateStored (fun _ => some []) "a.fafreplay".toList =
      RunResult.err IoErr.metadataMissing ∧
    extract_faf_legacy_replay zlibInflateStored (fun _ => some ["\x7b\x7d".toList])
      "a.fafreplay".toList = RunResult.err IoErr.streamMissing :=
  ⟨(extract_missing_lines_errors zlibInflateStored (fun _ => none)
      "a.fafreplay".toList).1 rfl,
   (extract_missing_lines_errors zlibInflateStored (fun _ => some [])
      "a.fafreplay".toList).2.1 rfl,
   (extract_missing_lines_errors zlibInflateStored (fun _ => some ["\x7b\x7d".toList])
      "a.fafreplay".toList).2.2.1 "\x7b\x7d".toList rfl⟩

/-- C5: for every input whose base64 decoding fails, the stream decoder
returns the base64 `CorruptReplay` error; the result does not depend on the
decompressor or touch the later stages, so decoding never proceeds to the
header strip or inflation. -/
theorem bad_base64_short_circuits :
    ∀ (inflate : List Nat → Option (List Nat)) (s : Str),
      b64Decode s = none →
      convert_legacy_replay_stream_to_raw inflate s = RunResult.err IoErr.badBase64 := by
  intro inflate s h
  simp only [convert_legacy_replay_stream_to_raw, h]

/-- C5 witness: the spec's example `"not-base64!!"` fails base64 decoding and
produces the base64 error. -/
theorem bad_base64_short_circuits_witness :
    b64Decode "not-base64!!".toList = none ∧
    convert_legacy_replay_stream_to_raw zlibInflateStored "not-base64!!".toList =
      RunResult.err IoErr.badBase64 :=
  ⟨by decide,
   bad_base64_short_circuits zlibInflateStored "not-base64!!".toList (by decide)⟩

/-- C6: for every input whose base64 decoding succeeds with at least 4 bytes
but whose remaining payload the decompressor rejects, the stream decoder
returns the propagated decompression error rather than succeeding or
panicking. -/
theorem bad_zlib_stream_errors :
    ∀ (inflate : List Nat → Option (List Nat)) (s : Str) (zipped : List Nat),
      b64Decode s = some zipped → 4 ≤ zipped.length →
      inflate (zipped.drop 4) = none →
      convert_legacy_replay_stream_to_raw inflate s =
        RunResult.err IoErr.badCompressedStream := by
  intro inflate s zipped h h4 hinf
  simp only [convert_legacy_replay_stream_to_raw, h, if_pos h4, hinf]

/-- C6 witness: valid base64 of a 4-byte prefix plus the bytes `[1, 2, 3]`,
which the stored-block zlib inflater rejects as truncated. -/
theorem bad_zlib_stream_errors_witness :
    convert_legacy_replay_stream_to_raw zlibInflateStored
      (b64Encode [0, 0, 0, 0, 1, 2, 3]) = RunResult.err IoErr.badCompressedStream :=
  bad_zlib_stream_errors zlibInflateStored (b64Encode [0, 0, 0, 0, 1, 2, 3])
    [0, 0, 0, 0, 1, 2, 3] (by decide) (by decide) (by decide)

/-- C7: for every path ending in `".scfareplay"`, `prepare_replay_file`
succeeds with the original path, for every filesystem and decompressor alike,
so no file is opened, copied or modified on this branch. -/
theorem scfareplay_passthrough :
    ∀ (inflate : List Nat → Option (List Nat)) (fs : Str → Option (List Str))
      (s : Str),
      ends_with s ".scfareplay".toList = true →
      prepare_replay_file inflate fs (RustPath.utf8 s) =
        RunResult.ok (ReplayLocation.atPath (RustPath.utf8 s)) := by
  intro inflate fs s h
  simp only [prepare_replay_file, RustPath.to_str, get_replay_type, h, if_pos]

/-- C7 witness: a concrete `.scfareplay` path over a filesystem in which no
file can even be opened. -/
theorem scfareplay_passthrough_witness :
    prepare_replay_file zlibInflateStored (fun _ => none)
      (RustPath.utf8 "game.scfareplay".toList) =
      RunResult.ok (ReplayLocation.atPath (RustPath.utf8 "game.scfareplay".toList)) :=
  scfareplay_passthrough zlibInflateStored (fun _ => none) "game.scfareplay".toList
    (by decide)

/-- C8: for every path whose name ends in neither recognized suffix,
`prepare_replay_file` fails with the unknown-format error, for every
filesystem and decompressor alike, so the file is never opened, read or
decoded. -/
theorem unknown_format_rejected :
    ∀ (inflate : List Nat → Option (List Nat)) (fs : Str → Option (List Str))
      (s : Str),
      ends_with s ".scfareplay".toList = false →
      ends_with s ".fafreplay".toList = false →
      prepare_replay_file inflate fs (RustPath.utf8 s) =
        RunResult.err IoErr.unknownReplayFormat := by
  intro inflate fs s h1 h2
  simp only [prepare_replay_file, RustPath.to_str, get_replay_type, h1, h2]
  rfl

/-- C8 witness: a concrete unrecognized path. -/
theorem unknown_format_rejected_witness :
    prepare_replay_file zlibInflateStored (fun _ => none)
      (RustPath.utf8 "notes.txt".toList) = RunResult.err IoErr.unknownReplayFormat :=
  unknown_format_rejected zlibInflateStored (fun _ => none) "notes.txt".toList
    (by decide) (by decide)

/-- C9: noninterference of the metadata line: two containers that differ only
in their first line give identical extraction outcomes, bytes and
success/failure alike — the first line is read but never influences the
result. -/
theorem metadata_noninterference :
    ∀ (inflate : List Nat → Option (List Nat)) (fs1 fs2 : Str → Option (List Str))
      (name m1 m2 : Str) (rest : List Str),
      fs1 name = some (m1 :: rest) → fs2 name = some (m2 :: rest) →
      extract_faf_legacy_replay inflate fs1 name =
        extract_faf_legacy_replay inflate fs2 name := by
  intro inflate fs1 fs2 name m1 m2 rest h1 h2
  simp only [extract_faf_legacy_replay, h1, h2]
  cases rest <;> rfl

/-- C9 witness: two concrete containers differing only in the metadata line. -/
theorem metadata_noninterference_witness :
    extract_faf_legacy_replay zlibInflateStored
      (fun _ => some ["metaA".toList, "AAAAAAAA".toList]) "a.fafreplay".toList =
    extract_faf_legacy_replay zlibInflateStored
      (fun _ => some ["metaB".toList, "AAAAAAAA".toList]) "a.fafreplay".toList :=
  metadata_noninterference zlibInflateStored
    (fun _ => some ["metaA".toList, "AAAAAAAA".toList])
    (fun _ => some ["metaB".toList, "AAAAAAAA".toList])
    "a.fafreplay".toList "metaA".toList "metaB".toList ["AAAAAAAA".toList] rfl rfl

/-- C10: `prepare_replay_file` presupposes a valid UTF-8 path: on any path
whose `to_str` is `None` it panics on the `unwrap`, for every filesystem and
decompressor, instead of returning an error; hence the error channel is only
reachable for UTF-8 paths. -/
theorem non_utf8_path_panics :
    ∀ (inflate : List Nat → Option (List Nat)) (fs : Str → Option (List Str))
      (p : RustPath),
      RustPath.to_str p = none →
      prepare_replay_file inflate fs p = RunResult.panicked := by
  intro inflate fs p h
  simp only [prepare_replay_file, h]

/-- C10 witness: a concrete non-UTF-8 path. -/
theorem non_utf8_path_panics_witness :
    prepare_replay_file zlibInflateStored (fun _ => none) (RustPath.nonUtf8 [255]) =
      RunResult.panicked :=
  non_utf8_path_panics zlibInflateStored (fun _ => none) (RustPath.nonUtf8 [255]) rfl
